import Mathlib

/-!
A verification development for the Vendor-Places-Api service: a shallow
embedding of its payment-challenge handling, configuration loading, stack
registration reconciler and request validator, together with theorems about
the properties the specification states for them.

Conventions of the embedding:
* JavaScript strings are `String` (or `List Char` where the code walks
  characters), JavaScript numbers that carry monetary or coordinate values
  are `ℚ` (exact decimal reading of the literal), and fallible or aborting
  code paths return `Option` (`none` models `process.exit` / a thrown error
  reaching the boundary).
* JavaScript objects whose exact field set matters (response bodies built
  with spread syntax) are association lists of `(String × JVal)`.
-/

/-- JSON-like values, modelling the JavaScript values the service builds into
response bodies. -/
inductive JVal where
  | str (s : String)
  | num (q : ℚ)
  | bool (b : Bool)
  | null
  | arr (elems : List JVal)
  | obj (fields : List (String × JVal))

/-- Field lookup in a JavaScript object: the value at key `k`, if present. -/
def getField (k : String) : List (String × JVal) → Option JVal
  | [] => none
  | (k2, v) :: rest => if k2 = k then some v else getField k rest

/-- The object literal `{...fields, k: v}`: spread of `fields` with the
property `k` overridden (replaced in place when the key already occurs,
appended otherwise). -/
def setField (fields : List (String × JVal)) (k : String) (v : JVal) :
    List (String × JVal) :=
  if fields.any (fun p => p.1 = k) then
    fields.map (fun p => if p.1 = k then (k, v) else p)
  else fields ++ [(k, v)]

/-- `lib/custom/places-service.ts`, `PlaceSearchResponse.metadata`: the
metadata object built by `PlacesService.textSearch`. -/
structure PlacesMetadata where
  query : String
  cost : String
  timestamp : String

/-- `lib/custom/places-service.ts`, `PlaceSearchResponse`: the business result
of `PlacesService.textSearch`.  The `results` array is carried opaquely as
JSON values: the route appends metadata without inspecting it. -/
structure PlaceSearchResponse where
  status : String
  results : List JVal
  metadata : PlacesMetadata

/-- `PlacesService.textSearch`, lines 150-158: the success value it returns,
with `metadata.query` echoing the request query, `metadata.cost` the literal
"$0.01" and `metadata.timestamp` the current time. -/
def textSearchResult (query status : String) (results : List JVal)
    (now : String) : PlaceSearchResponse :=
  { status := status
    results := results
    metadata := { query := query, cost := "$0.01", timestamp := now } }

/-- The JSON rendering of the `metadata` object produced by `textSearch`. -/
def metadataJson (m : PlacesMetadata) : JVal :=
  JVal.obj [("query", JVal.str m.query), ("cost", JVal.str m.cost),
    ("timestamp", JVal.str m.timestamp)]

/-- The JSON object that `textSearch`'s result denotes: the handler's business
result as a JavaScript object. -/
def searchResponseJson (r : PlaceSearchResponse) : List (String × JVal) :=
  [("status", JVal.str r.status), ("results", JVal.arr r.results),
    ("metadata", metadataJson r.metadata)]

/-- The settlement metadata object the priced route builds
(`POST /api/places/text-search` handler, lines 327-334). -/
def routeMetadata (priceUsd network now : String) : JVal :=
  JVal.obj [("cost", JVal.str ("$" ++ priceUsd)),
    ("protocol", JVal.str "x402 v1.0"),
    ("payment_method", JVal.str "gasless_micropayment"),
    ("facilitator_used", JVal.bool true),
    ("network", JVal.str network),
    ("timestamp", JVal.str now)]

/-- The success body the priced route sends, lines 325-335:
`res.json({...searchResults, metadata: {...}})`. -/
def textSearchRouteBody (r : PlaceSearchResponse) (priceUsd network now : String) :
    List (String × JVal) :=
  setField (searchResponseJson r) "metadata" (routeMetadata priceUsd network now)

/-- A concrete handler result for the route, as produced by `textSearch` for
the query "coffee shops". -/
def sampleSearchResult : PlaceSearchResponse :=
  textSearchResult "coffee shops" "OK" [] "2024-01-01T00:00:00Z"

/-- C1: the claim as stated is false on the code.  The handler's
`metadata` field (the object `{query, cost, timestamp}` returned by
`PlacesService.textSearch`) is a handler-produced field, yet in the response
body sent by the priced route it has been replaced by the route's settlement
metadata object: at this concrete admitted request the response's `metadata`
differs from the handler's. -/
theorem claim1_counterexample :
    getField "metadata"
        (textSearchRouteBody sampleSearchResult "0.01" "base" "2024-01-01T00:00:01Z")
      ≠ some (metadataJson sampleSearchResult.metadata) := by
  simp [textSearchRouteBody, searchResponseJson, setField, getField,
    sampleSearchResult, textSearchResult, metadataJson, routeMetadata]

/-- C1 (amended): the settlement merge leaves every handler-produced field
except `metadata` unchanged, and sets `metadata` to the route's settlement
object (replacing the `{query, cost, timestamp}` object that
`PlacesService.textSearch` produced under the same key). -/
theorem claim1_amended (r : PlaceSearchResponse) (priceUsd network now : String) :
    (∀ k, k ≠ "metadata" →
      getField k (textSearchRouteBody r priceUsd network now)
        = getField k (searchResponseJson r)) ∧
    getField "metadata" (textSearchRouteBody r priceUsd network now)
      = some (routeMetadata priceUsd network now) := by
  constructor
  · intro k hk
    have hk2 : "metadata" ≠ k := Ne.symm hk
    simp [textSearchRouteBody, searchResponseJson, setField, getField, hk2]
  · simp [textSearchRouteBody, searchResponseJson, setField, getField]

/-- C1 (amended) witness: at the sample handler result, the `status` and
`results` fields of the response equal the handler's, and `metadata` is the
route's settlement object. -/
theorem claim1_amended_witness :
    getField "status"
        (textSearchRouteBody sampleSearchResult "0.01" "base" "2024-01-01T00:00:01Z")
      = getField "status" (searchResponseJson sampleSearchResult) ∧
    getField "results"
        (textSearchRouteBody sampleSearchResult "0.01" "base" "2024-01-01T00:00:01Z")
      = getField "results" (searchResponseJson sampleSearchResult) ∧
    getField "metadata"
        (textSearchRouteBody sampleSearchResult "0.01" "base" "2024-01-01T00:00:01Z")
      = some (routeMetadata "0.01" "base" "2024-01-01T00:00:01Z") := by
  refine ⟨?_, ?_, ?_⟩
  · exact (claim1_amended sampleSearchResult "0.01" "base" "2024-01-01T00:00:01Z").1
      "status" (by decide)
  · exact (claim1_amended sampleSearchResult "0.01" "base" "2024-01-01T00:00:01Z").1
      "results" (by decide)
  · exact (claim1_amended sampleSearchResult "0.01" "base" "2024-01-01T00:00:01Z").2

/-- A JavaScript string-or-undefined environment variable: `none` models an
unset variable.  `orDefault` models `process.env.X || "d"`: the default is
used when the variable is unset or empty (falsy). -/
def orDefault (v : Option String) (d : String) : String :=
  match v with
  | none => d
  | some s => if s = "" then d else s

/-- `truthyStr v` models JavaScript truthiness of the string-or-undefined
value `v` (the `!value` test used by the missing-variable checks). -/
def truthyStr (v : Option String) : Bool :=
  match v with
  | none => false
  | some s => !(s = "")

/-- The environment variables the two configuration loaders read. -/
structure Env where
  googlePlacesApiKey : Option String := none
  paymentWalletAddress : Option String := none
  facilitatorUrl : Option String := none
  network : Option String := none
  paymentPriceUsd : Option String := none
  cdpApiKeyId : Option String := none
  cdpApiKeySecret : Option String := none

/-- `src/types/index.ts` / `lib/custom/config/api-config.ts`:
the resolved payment configuration (the network profile). -/
structure PaymentConfig where
  payTo : String
  facilitatorUrl : String
  network : String
  priceUsd : String

/-- `src/config/x402.ts` line 29: the fixed enumerated set of supported
network identifiers. -/
def validNetworks : List String := ["base", "base-sepolia", "avalanche", "solana"]

/-- `src/config/x402.ts` lines 7-41: module-level configuration loading.
`none` models `process.exit(1)` (startup aborted); the checks run in source
order: first the missing-variable check over the defaulted record, then the
network validation against `validNetworks`. -/
def loadX402Config (e : Env) : Option PaymentConfig :=
  let key := e.googlePlacesApiKey
  let wallet := e.paymentWalletAddress
  let facUrl := orDefault e.facilitatorUrl "https://x402.org/facilitator"
  let net := orDefault e.network "base"
  let price := orDefault e.paymentPriceUsd "0.01"
  if !(truthyStr key) || !(truthyStr wallet) then none
  else if !(validNetworks.contains net) then none
  else some { payTo := wallet.getD "", facilitatorUrl := facUrl,
              network := net, priceUsd := price }

/-- `lib/custom/config/api-config.ts` lines 14-39, `getConfig`: the
serverless configuration loader.  `none` models returning `null`.  The
missing-variable check skips `NETWORK` and `PAYMENT_PRICE_USD`; `NETWORK`
is defaulted to "base" and is otherwise passed through with no validation
against any set of supported identifiers. -/
def getConfig (e : Env) : Option PaymentConfig :=
  let key := e.googlePlacesApiKey
  let wallet := e.paymentWalletAddress
  let facUrl := e.facilitatorUrl
  let net := orDefault e.network "base"
  let price := orDefault e.paymentPriceUsd "0.01"
  if !(truthyStr key) || !(truthyStr wallet) || !(truthyStr facUrl) then none
  else some { payTo := wallet.getD "", facilitatorUrl := facUrl.getD "",
              network := net, priceUsd := price }

/-- The Express server startup (`part_001` lines 9 and 134-145): importing
`./config/x402.js` runs the `loadX402Config` checks, then `getConfig` is
consulted (`process.exit(1)` when it returns `null`), then mainnet CDP
credentials are required when the network is "base".  `none` models an
aborted startup; `some` carries the runtime configuration served. -/
def expressStartup (e : Env) : Option PaymentConfig :=
  match loadX402Config e with
  | none => none
  | some _ =>
    match getConfig e with
    | none => none
    | some cfg =>
      if cfg.network = "base" && (!(truthyStr e.cdpApiKeyId) || !(truthyStr e.cdpApiKeySecret))
      then none else some cfg

/-- An environment with all required variables set and an unsupported
network identifier. -/
def envUnsupportedNet : Env :=
  { googlePlacesApiKey := some "test-key"
    paymentWalletAddress := some "0x1111111111111111111111111111111111111111"
    facilitatorUrl := some "https://facilitator.example"
    network := some "not-a-network" }

/-- C3: the claim as stated is false on the code.  "not-a-network" is outside
the fixed supported set, yet the `getConfig` configuration-loading path
(`lib/custom/config/api-config.ts`) resolves it without any configuration
error: it returns a profile whose network is the unsupported identifier, so
that path does not abort. -/
theorem claim3_counterexample :
    validNetworks.contains "not-a-network" = false ∧
    getConfig envUnsupportedNet
      = some { payTo := "0x1111111111111111111111111111111111111111",
               facilitatorUrl := "https://facilitator.example",
               network := "not-a-network", priceUsd := "0.01" } := by
  constructor
  · decide
  · rfl

/-- C3 (amended): network validation lives only on the `x402.ts`
configuration path.  With the required variables present: on that path every
identifier outside `validNetworks` aborts startup and every identifier inside
it yields exactly one profile carrying that identifier; the Express server,
whose startup runs that path, therefore aborts on unsupported identifiers.
The `getConfig` serverless path performs no network validation and produces a
profile for any identifier whatsoever. -/
theorem claim3_amended (e : Env)
    (hkey : truthyStr e.googlePlacesApiKey = true)
    (hwallet : truthyStr e.paymentWalletAddress = true)
    (hfac : truthyStr e.facilitatorUrl = true) :
    (validNetworks.contains (orDefault e.network "base") = false →
      loadX402Config e = none ∧ expressStartup e = none) ∧
    (validNetworks.contains (orDefault e.network "base") = true →
      ∃ c, loadX402Config e = some c ∧ c.network = orDefault e.network "base" ∧
        ∀ c2, loadX402Config e = some c2 → c2 = c) ∧
    (∃ c, getConfig e = some c ∧ c.network = orDefault e.network "base") := by
  refine ⟨?_, ?_, ?_⟩
  · intro hnet
    have hnet2 : orDefault e.network "base" ∉ validNetworks := by simpa using hnet
    have h1 : loadX402Config e = none := by
      simp [loadX402Config, hkey, hwallet, hnet2]
    exact ⟨h1, by simp [expressStartup, h1]⟩
  · intro hnet
    have hnet2 : orDefault e.network "base" ∈ validNetworks := by simpa using hnet
    have h1 : loadX402Config e
        = some { payTo := e.paymentWalletAddress.getD "",
                 facilitatorUrl := orDefault e.facilitatorUrl "https://x402.org/facilitator",
                 network := orDefault e.network "base",
                 priceUsd := orDefault e.paymentPriceUsd "0.01" } := by
      simp [loadX402Config, hkey, hwallet, hnet2]
    exact ⟨_, h1, rfl, fun c2 h2 => by
      rw [h1] at h2
      exact (Option.some_injective _ h2).symm⟩
  · have h1 : getConfig e
        = some { payTo := e.paymentWalletAddress.getD "",
                 facilitatorUrl := e.facilitatorUrl.getD "",
                 network := orDefault e.network "base",
                 priceUsd := orDefault e.paymentPriceUsd "0.01" } := by
      simp [getConfig, hkey, hwallet, hfac]
    exact ⟨_, h1, rfl⟩

/-- C3 (amended) witness: at a concrete environment with the unsupported
identifier "not-a-network", the `x402.ts` path and the Express startup abort
while `getConfig` still produces a profile. -/
theorem claim3_amended_witness :
    loadX402Config envUnsupportedNet = none ∧
    expressStartup envUnsupportedNet = none ∧
    ∃ c, getConfig envUnsupportedNet = some c ∧ c.network = "not-a-network" := by
  have h := claim3_amended envUnsupportedNet (by decide) (by decide) (by decide)
  have hnet : validNetworks.contains (orDefault envUnsupportedNet.network "base") = false := by
    decide
  refine ⟨(h.1 hnet).1, (h.1 hnet).2, h.2.2⟩

/-- Whitespace recognized by the JavaScript `trim()` calls in the sources. -/
def isWsChar (c : Char) : Bool := c = ' ' || c = '\t' || c = '\n' || c = '\r'

/-- `s.trim()`: drop leading and trailing whitespace. -/
def trimChars (s : List Char) : List Char :=
  ((s.dropWhile isWsChar).reverse.dropWhile isWsChar).reverse

/-- `s.split(sep)` for a one-character separator, with JavaScript semantics:
the result is never empty, and splitting the empty string yields `[""]`. -/
def splitOnChar (sep : Char) : List Char → List (List Char)
  | [] => [[]]
  | c :: rest =>
    let r := splitOnChar sep rest
    if c = sep then [] :: r
    else
      match r with
      | [] => [[c]]
      | p :: ps => (c :: p) :: ps

/-- Decimal digit test used by the number parsing model. -/
def isDigitChar (c : Char) : Bool := '0' ≤ c && c ≤ '9'

/-- The natural number denoted by a list of decimal digits. -/
def natOfDigits (ds : List Char) : Nat :=
  ds.foldl (fun acc c => acc * 10 + (c.toNat - '0'.toNat)) 0

/-- The exact rational value of an unsigned decimal literal (digits with at
most one point).  This models `parseFloat` on the well-formed full-string
decimal literals the validator and price configuration deal in; `none`
models `NaN`. -/
def parseUnsigned (s : List Char) : Option ℚ :=
  match splitOnChar '.' s with
  | [i] => if !i.isEmpty && i.all isDigitChar then some ((natOfDigits i : ℚ)) else none
  | [i, f] =>
    if !(i ++ f).isEmpty && i.all isDigitChar && f.all isDigitChar then
      some ((natOfDigits i : ℚ) + (natOfDigits f : ℚ) / 10 ^ f.length)
    else none
  | _ => none

/-- `parseFloat` with an optional leading sign (see `parseUnsigned`). -/
def parseSigned (s : List Char) : Option ℚ :=
  if s.head? = some '-' then (parseUnsigned s.tail).map (fun q => -q)
  else if s.head? = some '+' then parseUnsigned s.tail
  else parseUnsigned s

/-- Modelled from the spec: the payment requirement the 402 challenge carries
for a priced route (§3, `PaymentRequirement`).  The concrete builder lives in
the `x402-express` middleware, which is not part of this repository's
sources. -/
structure PaymentRequirement402 where
  payTo : String
  maxAmountRequired : Nat
  network : String

/-- Modelled from the spec: the `authorization` sub-object of a decoded
payment proof (§3, `AuthorizationPayload`); `fromAddr`/`toAddr` stand for the
on-wire `from`/`to`. -/
structure AuthorizationX402 where
  fromAddr : String
  toAddr : String
  value : Nat
  validAfter : Nat
  validBefore : Nat
  nonce : String

/-- Modelled from the spec: the result of running the Authorization Payload
Codec on a present proof header (§4.3): either a decode failure (malformed
base64 / missing sub-fields) or a decoded payload with its network and
authorization. -/
inductive DecodedProof where
  | malformed
  | payload (network : String) (auth : AuthorizationX402)

/-- Modelled from the spec: the facilitator's verdict on a decoded proof
(§4.3): approval, a negative verdict, or unreachability. -/
inductive FacilitatorVerdict where
  | approve
  | deny
  | unreachable
deriving DecidableEq

/-- Modelled from the spec: the terminal HTTP outcome of the Payment
Challenge State Machine for one request to a priced route. -/
inductive ChallengeOutcome where
  | http402Challenge
  | http400Rejected
  | admitted
deriving DecidableEq

/-- Modelled from the spec: the per-request Payment Challenge State Machine
(§4.3), whose implementation is the `x402-express` `paymentMiddleware`
configured in `part_001` lines 175-187 and is not part of this repository's
sources.  No proof header yields a 402 challenge; a present proof that fails
decoding, names the wrong network, or whose `to`/`value` mismatch the
route's requirement yields HTTP 400; a decoded matching proof is delegated
to the facilitator, whose non-approval yields a re-issued 402 and whose
approval admits the request. -/
def processPricedRequest (req : PaymentRequirement402) (proof : Option DecodedProof)
    (verdict : FacilitatorVerdict) : ChallengeOutcome :=
  match proof with
  | none => ChallengeOutcome.http402Challenge
  | some DecodedProof.malformed => ChallengeOutcome.http400Rejected
  | some (DecodedProof.payload net auth) =>
    if net ≠ req.network ∨ auth.toAddr ≠ req.payTo ∨ auth.value ≠ req.maxAmountRequired then
      ChallengeOutcome.http400Rejected
    else
      match verdict with
      | FacilitatorVerdict.approve => ChallengeOutcome.admitted
      | FacilitatorVerdict.deny => ChallengeOutcome.http402Challenge
      | FacilitatorVerdict.unreachable => ChallengeOutcome.http402Challenge

/-- C2: a request carrying a payment proof whose decoded authorization has a
`to` or `value` that does not match the route's payment requirement is
rejected with HTTP 400 — never with HTTP 402 and never admitted — whatever
the facilitator would have said. -/
theorem claim2_mismatch_rejected_400 (req : PaymentRequirement402) (net : String)
    (auth : AuthorizationX402) (verdict : FacilitatorVerdict)
    (h : auth.toAddr ≠ req.payTo ∨ auth.value ≠ req.maxAmountRequired) :
    processPricedRequest req (some (DecodedProof.payload net auth)) verdict
      = ChallengeOutcome.http400Rejected ∧
    ChallengeOutcome.http400Rejected ≠ ChallengeOutcome.http402Challenge ∧
    ChallengeOutcome.http400Rejected ≠ ChallengeOutcome.admitted := by
  refine ⟨?_, by decide, by decide⟩
  have hcond : net ≠ req.network ∨ auth.toAddr ≠ req.payTo ∨ auth.value ≠ req.maxAmountRequired :=
    Or.inr h
  simp only [processPricedRequest, if_pos hcond]

/-- C2 witness: a concrete proof paying the wrong amount to the wrong
address is rejected with HTTP 400 even though the facilitator would have
approved it. -/
theorem claim2_witness :
    processPricedRequest
        { payTo := "0xServerWallet", maxAmountRequired := 10000, network := "base" }
        (some (DecodedProof.payload "base"
          { fromAddr := "0xPayer", toAddr := "0xSomeoneElse", value := 9999,
            validAfter := 0, validBefore := 3600, nonce := "0x01" }))
        FacilitatorVerdict.approve
      = ChallengeOutcome.http400Rejected ∧
    ChallengeOutcome.http400Rejected ≠ ChallengeOutcome.http402Challenge ∧
    ChallengeOutcome.http400Rejected ≠ ChallengeOutcome.admitted :=
  claim2_mismatch_rejected_400
    { payTo := "0xServerWallet", maxAmountRequired := 10000, network := "base" }
    "base"
    { fromAddr := "0xPayer", toAddr := "0xSomeoneElse", value := 9999,
      validAfter := 0, validBefore := 3600, nonce := "0x01" }
    FacilitatorVerdict.approve
    (Or.inl (by decide))

/-- Modelled from the spec: the Payment Requirement Builder's USD-price to
minor-unit conversion (§4.2).  The conversion itself happens inside the
`x402-express` middleware fed with `price: "$" + priceUsd` (`part_001` line
181) and is not part of this repository's sources; per the spec it must use
exact decimal arithmetic, so it is modelled as pure string processing: a
decimal USD amount with at most 6 fractional digits becomes the integer
number of 10^-6 stablecoin units. -/
def usdToMinorUnits (s : List Char) : Option Nat :=
  match splitOnChar '.' s with
  | [i] => if !i.isEmpty && i.all isDigitChar then some (natOfDigits i * 10 ^ 6) else none
  | [i, f] =>
    if !i.isEmpty && !f.isEmpty && decide (f.length ≤ 6)
        && i.all isDigitChar && f.all isDigitChar then
      some (natOfDigits i * 10 ^ 6 + natOfDigits f * 10 ^ (6 - f.length))
    else none
  | _ => none

/-- The `maxAmountRequired` integer string placed in the 402 challenge. -/
def maxAmountRequiredStr (s : List Char) : Option (List Char) :=
  (usdToMinorUnits s).map (fun n => (Nat.repr n).data)

/-- C8: the minor-unit conversion is exact: whenever it produces an integer
`n` for a configured price string, `n` equals the exact rational value of
that decimal string times 10^6 — no floating rounding loss — and in
particular the price "0.01" yields `maxAmountRequired` "10000". -/
theorem claim8_exact_conversion :
    (∀ s n, usdToMinorUnits s = some n →
      ∃ q, parseUnsigned s = some q ∧ (n : ℚ) = q * 10 ^ 6) ∧
    usdToMinorUnits ("0.01".data) = some 10000 ∧
    maxAmountRequiredStr ("0.01".data) = some ("10000".data) := by
  refine ⟨?_, by decide, by decide⟩
  intro s n h
  unfold usdToMinorUnits at h
  unfold parseUnsigned
  rcases hsp : splitOnChar '.' s with _ | ⟨i, _ | ⟨f, _ | ⟨g, rest⟩⟩⟩ <;>
    rw [hsp] at h <;> simp only [] at h ⊢
  · exact absurd h (by simp)
  · split_ifs at h with hc
    · refine ⟨(natOfDigits i : ℚ), by rw [if_pos hc], ?_⟩
      have hn : n = natOfDigits i * 10 ^ 6 := (Option.some_injective _ h).symm
      rw [hn]; push_cast; ring
  · split_ifs at h with hc
    have key : ∀ (a b len m : ℕ), ((a * 10 ^ (len + m) + b * 10 ^ m : ℕ) : ℚ)
        = ((a : ℚ) + (b : ℚ) / 10 ^ len) * 10 ^ (len + m) := by
      intro a b len m
      have h10 : ((10 : ℚ) ^ len) ≠ 0 := by positivity
      push_cast
      field_simp
      ring
    simp only [Bool.and_eq_true] at hc
    obtain ⟨⟨⟨⟨hA, hB⟩, hC⟩, hD⟩, hE⟩ := hc
    have hlen : f.length ≤ 6 := by simpa using hC
    have hiNe : i ≠ [] := by simpa using hA
    have hcond2 : (!(i ++ f).isEmpty && i.all isDigitChar && f.all isDigitChar) = true := by
      simp [List.isEmpty_eq_true, List.append_eq_nil, hiNe, hD, hE]
    refine ⟨_, by rw [if_pos hcond2], ?_⟩
    have hn : n = natOfDigits i * 10 ^ 6 + natOfDigits f * 10 ^ (6 - f.length) :=
      (Option.some_injective _ h).symm
    rw [hn]
    have h6 : (6 : ℕ) = f.length + (6 - f.length) := by omega
    rw [h6]
    have h66 : f.length + (6 - f.length) - f.length = 6 - f.length := by omega
    rw [h66]
    exact key (natOfDigits i) (natOfDigits f) f.length (6 - f.length)
  · exact absurd h (by simp)

/-- C8 witness: at the price "0.01" the conversion result 10000 equals the
exact decimal value of "0.01" times 10^6. -/
theorem claim8_witness :
    ∃ q, parseUnsigned ("0.01".data) = some q ∧ ((10000 : Nat) : ℚ) = q * 10 ^ 6 :=
  claim8_exact_conversion.1 ("0.01".data) 10000 (by decide)

/-- Prefix test on character lists. -/
def prefixChars : List Char → List Char → Bool
  | [], _ => true
  | _ :: _, [] => false
  | a :: as, b :: bs => a = b && prefixChars as bs

/-- `hay.includes(needle)`: substring containment, as JavaScript's
`String.prototype.includes`. -/
def containsSub (needle : List Char) : List Char → Bool
  | [] => prefixChars needle []
  | c :: t => prefixChars needle (c :: t) || containsSub needle t

/-- `part_000`, `RegistrationResult`: the result object of the registration
service; absent optional fields are `none`. -/
structure RegistrationResult where
  success : Bool
  vendorId : Option String := none
  error : Option String := none
  alreadyRegistered : Option Bool := none
deriving DecidableEq

/-- One call to `attemptRegistration()` as seen by `register()`'s loop:
either it resolves to a `RegistrationResult` or it throws. -/
inductive AttemptOutcome where
  | ok (r : RegistrationResult)
  | thrown (msg : String)

/-- `part_000` constructor lines 38-39: the retry configuration after the
`?? 3` / `?? 5000` defaults. -/
structure RegConfig where
  retryAttempts : Nat
  retryDelayMs : Nat

/-- Constructor input for the retry fields (absent means not supplied). -/
structure RegConfigIn where
  retryAttempts : Option Nat := none
  retryDelayMs : Option Nat := none

/-- `part_000` lines 31-41: the `StackRegistrationService` constructor's
defaulting of the retry configuration. -/
def mkRegConfig (c : RegConfigIn) : RegConfig :=
  { retryAttempts := c.retryAttempts.getD 3
    retryDelayMs := c.retryDelayMs.getD 5000 }

/-- The service's only mutable field, `private registered = false`. -/
structure RegState where
  registered : Bool
deriving DecidableEq

/-- Observable events of one `register()` run: a registration attempt with
its 1-based index, or a passive wait of the given milliseconds. -/
inductive RegEvent where
  | attempt (i : Nat)
  | wait (ms : Nat)
deriving DecidableEq

/-- `result.error?.includes("already registered")`: the idempotency test on
an attempt's result (reached only when `success` is false). -/
def indicatesAlready (r : RegistrationResult) : Bool :=
  match r.error with
  | none => false
  | some e => containsSub ("already registered".data) e.data

/-- The failure result built after the loop exhausts all attempts
(`part_000` lines 88-92). -/
def registerFailResult (cfg : RegConfig) : RegistrationResult :=
  { success := false
    error := some ("Registration failed after " ++ Nat.repr cfg.retryAttempts ++ " attempts") }

/-- `part_000` lines 54-92: the `for (attempt = 1; attempt <= retryAttempts)`
loop of `register()`, with `attempt` the 1-based loop counter and `remaining`
the number of iterations still allowed (`retryAttempts + 1 - attempt`; the
loop guard).  The stub `stub` supplies each `attemptRegistration()` outcome.
Returns the result, the final `registered` state, and the event trace. -/
def registerLoop (cfg : RegConfig) (stub : Nat → AttemptOutcome) (st : RegState) :
    Nat → Nat → RegistrationResult × RegState × List RegEvent
  | _, 0 => (registerFailResult cfg, st, [])
  | attempt, remaining + 1 =>
    match stub attempt with
    | AttemptOutcome.ok r =>
      if r.success = true then (r, { registered := true }, [RegEvent.attempt attempt])
      else if indicatesAlready r = true then
        ({ success := true, alreadyRegistered := some true },
          { registered := true }, [RegEvent.attempt attempt])
      else
        let next := registerLoop cfg stub st (attempt + 1) remaining
        if attempt < cfg.retryAttempts then
          (next.1, next.2.1,
            RegEvent.attempt attempt :: RegEvent.wait cfg.retryDelayMs :: next.2.2)
        else (next.1, next.2.1, [RegEvent.attempt attempt])
    | AttemptOutcome.thrown _ =>
      let next := registerLoop cfg stub st (attempt + 1) remaining
      if attempt < cfg.retryAttempts then
        (next.1, next.2.1,
          RegEvent.attempt attempt :: RegEvent.wait cfg.retryDelayMs :: next.2.2)
      else (next.1, next.2.1, [RegEvent.attempt attempt])

/-- `part_000` lines 46-93, `register()`: the sticky-flag short-circuit
(lines 47-50) followed by the bounded retry loop. -/
def register (cfg : RegConfig) (stub : Nat → AttemptOutcome) (st : RegState) :
    RegistrationResult × RegState × List RegEvent :=
  if st.registered = true then
    ({ success := true, alreadyRegistered := some true }, st, [])
  else registerLoop cfg stub st 1 cfg.retryAttempts

/-- An attempt outcome that neither succeeds nor indicates "already
registered": the loop continues past it. -/
def nonTerminal : AttemptOutcome → Bool
  | AttemptOutcome.thrown _ => true
  | AttemptOutcome.ok r => !r.success && !(indicatesAlready r)

/-- Number of `attempt` events in a trace. -/
def countAttempts (evs : List RegEvent) : Nat :=
  (evs.filter fun e => match e with | RegEvent.attempt _ => true | _ => false).length

/-- Number of `wait` events in a trace. -/
def countWaits (evs : List RegEvent) : Nat :=
  (evs.filter fun e => match e with | RegEvent.wait _ => true | _ => false).length

/-- The trace of a run whose attempts `a, a+1, ..., a+c` are all made, with a
`wait d` between consecutive attempts and none after the last. -/
def stepTrace (d a : Nat) : Nat → List RegEvent
  | 0 => [RegEvent.attempt a]
  | c + 1 => RegEvent.attempt a :: RegEvent.wait d :: stepTrace d (a + 1) c

/-- Attempt counts of the canonical trace: attempts `a..a+c` are `c+1` many. -/
theorem countAttempts_stepTrace (d : Nat) : ∀ c a, countAttempts (stepTrace d a c) = c + 1 := by
  intro c
  induction c with
  | zero => intro a; simp [stepTrace, countAttempts]
  | succ c ih =>
    intro a
    simp [stepTrace, countAttempts] at ih ⊢
    exact ih (a + 1)

/-- Wait counts of the canonical trace: `c` waits separate `c+1` attempts. -/
theorem countWaits_stepTrace (d : Nat) : ∀ c a, countWaits (stepTrace d a c) = c := by
  intro c
  induction c with
  | zero => intro a; simp [stepTrace, countWaits]
  | succ c ih =>
    intro a
    simp [stepTrace, countWaits] at ih ⊢
    exact ih (a + 1)

/-- The canonical trace is never empty. -/
theorem stepTrace_ne_nil (d a c : Nat) : stepTrace d a c ≠ [] := by
  cases c <;> simp [stepTrace]

/-- The last event of the canonical trace is its final attempt: no wait
follows the last attempt. -/
theorem getLast?_stepTrace (d : Nat) :
    ∀ c a, (stepTrace d a c).getLast? = some (RegEvent.attempt (a + c)) := by
  have hstep : ∀ (y : RegEvent) (l : List RegEvent), l ≠ [] →
      (y :: l).getLast? = l.getLast? := by
    intro y l hne
    cases l with
    | nil => exact absurd rfl hne
    | cons z t => exact List.getLast?_cons_cons
  intro c
  induction c with
  | zero => intro a; simp [stepTrace]
  | succ c ih =>
    intro a
    rw [show stepTrace d a (c + 1)
        = RegEvent.attempt a :: RegEvent.wait d :: stepTrace d (a + 1) c from rfl,
      List.getLast?_cons_cons, hstep _ _ (stepTrace_ne_nil d (a + 1) c), ih (a + 1),
      show a + 1 + c = a + (c + 1) from by omega]

/-- One unfolding step of the retry loop (the body of one `for` iteration). -/
theorem registerLoop_succ (cfg : RegConfig) (stub : Nat → AttemptOutcome)
    (st : RegState) (a r : Nat) :
    registerLoop cfg stub st a (r + 1)
      = match stub a with
        | AttemptOutcome.ok r0 =>
          if r0.success = true then (r0, { registered := true }, [RegEvent.attempt a])
          else if indicatesAlready r0 = true then
            ({ success := true, alreadyRegistered := some true },
              { registered := true }, [RegEvent.attempt a])
          else
            let next := registerLoop cfg stub st (a + 1) r
            if a < cfg.retryAttempts then
              (next.1, next.2.1,
                RegEvent.attempt a :: RegEvent.wait cfg.retryDelayMs :: next.2.2)
            else (next.1, next.2.1, [RegEvent.attempt a])
        | AttemptOutcome.thrown _ =>
          let next := registerLoop cfg stub st (a + 1) r
          if a < cfg.retryAttempts then
            (next.1, next.2.1,
              RegEvent.attempt a :: RegEvent.wait cfg.retryDelayMs :: next.2.2)
          else (next.1, next.2.1, [RegEvent.attempt a]) := rfl

/-- When every reachable attempt is non-terminal, the loop makes every
remaining attempt (with a wait between consecutive ones and none after the
last), leaves the `registered` flag untouched, and returns the exhaustion
failure result. -/
theorem registerLoop_allFail (cfg : RegConfig) (stub : Nat → AttemptOutcome)
    (st : RegState) :
    ∀ rem a, 1 ≤ a → a + rem = cfg.retryAttempts + 1 →
    (∀ i, a ≤ i → i ≤ cfg.retryAttempts → nonTerminal (stub i) = true) →
    registerLoop cfg stub st a rem
      = (registerFailResult cfg, st,
          if rem = 0 then [] else stepTrace cfg.retryDelayMs a (rem - 1)) := by
  intro rem
  induction rem with
  | zero => intro a _ _ _; simp [registerLoop]
  | succ r ih =>
    intro a ha1 ha2 hnt
    have haN : a ≤ cfg.retryAttempts := by omega
    have hnta : nonTerminal (stub a) = true := hnt a le_rfl haN
    have hnext : registerLoop cfg stub st (a + 1) r
        = (registerFailResult cfg, st,
            if r = 0 then [] else stepTrace cfg.retryDelayMs (a + 1) (r - 1)) := by
      apply ih (a + 1) (by omega) (by omega)
      intro i hi1 hi2
      exact hnt i (by omega) hi2
    rw [registerLoop_succ]
    rcases Nat.lt_or_ge a cfg.retryAttempts with hlt | hge
    · obtain ⟨r2, rfl⟩ : ∃ r2, r = r2 + 1 := ⟨r - 1, by omega⟩
      cases hstub : stub a with
      | ok r0 =>
        rw [hstub] at hnta
        simp only [nonTerminal, Bool.and_eq_true, Bool.not_eq_true'] at hnta
        obtain ⟨hs, hi⟩ := hnta
        simp only [hs, hi, Bool.false_eq_true, if_false, hnext, if_pos hlt]
        simp [stepTrace]
      | thrown msg =>
        simp only [hnext, if_pos hlt]
        simp [stepTrace]
    · have hr0 : r = 0 := by omega
      subst hr0
      cases hstub : stub a with
      | ok r0 =>
        rw [hstub] at hnta
        simp only [nonTerminal, Bool.and_eq_true, Bool.not_eq_true'] at hnta
        obtain ⟨hs, hi⟩ := hnta
        simp only [hs, hi, Bool.false_eq_true, if_false, hnext,
          if_neg (by omega : ¬ a < cfg.retryAttempts)]
        simp [stepTrace]
      | thrown msg =>
        simp only [hnext, if_neg (by omega : ¬ a < cfg.retryAttempts)]
        simp [stepTrace]

/-- When attempts `a..a+c-1` are non-terminal and attempt `a+c` reports
"already registered", the loop stops exactly there with the idempotent
success result and the sticky flag set. -/
theorem registerLoop_already (cfg : RegConfig) (stub : Nat → AttemptOutcome)
    (st : RegState) :
    ∀ c a rem, 1 ≤ a → c < rem → a + c ≤ cfg.retryAttempts →
    (∀ i, a ≤ i → i < a + c → nonTerminal (stub i) = true) →
    (∃ r0, stub (a + c) = AttemptOutcome.ok r0 ∧ r0.success = false ∧
      indicatesAlready r0 = true) →
    registerLoop cfg stub st a rem
      = ({ success := true, alreadyRegistered := some true }, { registered := true },
          stepTrace cfg.retryDelayMs a c) := by
  intro c
  induction c with
  | zero =>
    intro a rem ha1 hrem haN hnt hterm
    obtain ⟨r0, hstub, hs, hi⟩ := hterm
    obtain ⟨r2, rfl⟩ : ∃ r2, rem = r2 + 1 := ⟨rem - 1, by omega⟩
    rw [Nat.add_zero] at hstub
    rw [registerLoop_succ, hstub]
    simp only [hs, hi, Bool.false_eq_true, if_false, if_true]
    simp [stepTrace]
  | succ c ih =>
    intro a rem ha1 hrem haN hnt hterm
    obtain ⟨r2, rfl⟩ : ∃ r2, rem = r2 + 1 := ⟨rem - 1, by omega⟩
    have hnta : nonTerminal (stub a) = true := hnt a le_rfl (by omega)
    have hlt : a < cfg.retryAttempts := by omega
    have hnext : registerLoop cfg stub st (a + 1) r2
        = ({ success := true, alreadyRegistered := some true }, { registered := true },
            stepTrace cfg.retryDelayMs (a + 1) c) := by
      apply ih (a + 1) r2 (by omega) (by omega) (by omega)
      · intro i hi1 hi2
        exact hnt i (by omega) (by omega)
      · obtain ⟨r0, hstub, hs, hi⟩ := hterm
        exact ⟨r0, by rw [show a + 1 + c = a + (c + 1) by omega]; exact hstub, hs, hi⟩
    rw [registerLoop_succ]
    cases hstub : stub a with
    | ok r0 =>
      rw [hstub] at hnta
      simp only [nonTerminal, Bool.and_eq_true, Bool.not_eq_true'] at hnta
      obtain ⟨hs, hi⟩ := hnta
      simp only [hs, hi, Bool.false_eq_true, if_false, hnext, if_pos hlt]
      simp [stepTrace]
    | thrown msg =>
      simp only [hnext, if_pos hlt]
      simp [stepTrace]

/-- C4: if the registered flag is not yet set and some attempt `k` within the
configured bound is the first terminal one, answering `{success:false,
error:"already registered"}` (all earlier attempts failing or throwing
without that indication), then `register()` stops at attempt `k` with the
idempotent success `{success:=true, alreadyRegistered:=true}`, performs
exactly `k` attempts with nothing after the `k`-th, sets the sticky flag,
and reports no error. -/
theorem claim4_already_registered (cfg : RegConfig) (stub : Nat → AttemptOutcome)
    (st : RegState) (k : Nat)
    (hst : st.registered = false) (hk1 : 1 ≤ k) (hk2 : k ≤ cfg.retryAttempts)
    (hpre : ∀ i, 1 ≤ i → i < k → nonTerminal (stub i) = true)
    (hterm : ∃ r0, stub k = AttemptOutcome.ok r0 ∧ r0.success = false ∧
      indicatesAlready r0 = true) :
    register cfg stub st
      = ({ success := true, alreadyRegistered := some true }, { registered := true },
          stepTrace cfg.retryDelayMs 1 (k - 1)) ∧
    countAttempts (stepTrace cfg.retryDelayMs 1 (k - 1)) = k ∧
    (stepTrace cfg.retryDelayMs 1 (k - 1)).getLast? = some (RegEvent.attempt k) ∧
    ({ success := true, alreadyRegistered := some true } : RegistrationResult).error
      = none := by
  have hk : 1 + (k - 1) = k := by omega
  have hmain : register cfg stub st
      = ({ success := true, alreadyRegistered := some true }, { registered := true },
          stepTrace cfg.retryDelayMs 1 (k - 1)) := by
    rw [register, if_neg (by simp [hst])]
    apply registerLoop_already cfg stub st (k - 1) 1 cfg.retryAttempts le_rfl
      (by omega) (by omega)
    · intro i hi1 hi2
      exact hpre i hi1 (by omega)
    · rw [hk]
      exact hterm
  refine ⟨hmain, ?_, ?_, rfl⟩
  · rw [countAttempts_stepTrace]
    omega
  · rw [getLast?_stepTrace, hk]

/-- C4 witness: with the flag clear and a registry stub answering
`{success:false, error:"already registered"}` on every attempt, `register()`
under the default configuration stops at the first attempt with the
idempotent success result. -/
theorem claim4_witness :
    register (mkRegConfig {})
        (fun _ => AttemptOutcome.ok { success := false, error := some "already registered" })
        { registered := false }
      = ({ success := true, alreadyRegistered := some true }, { registered := true },
          stepTrace 5000 1 0) ∧
    countAttempts (stepTrace 5000 1 0) = 1 ∧
    (stepTrace 5000 1 0).getLast? = some (RegEvent.attempt 1) ∧
    ({ success := true, alreadyRegistered := some true } : RegistrationResult).error
      = none := by
  have h := claim4_already_registered (mkRegConfig {})
    (fun _ => AttemptOutcome.ok { success := false, error := some "already registered" })
    { registered := false } 1 rfl le_rfl (by simp [mkRegConfig])
    (fun i hi1 hi2 => absurd (lt_of_le_of_lt hi1 hi2) (lt_irrefl 1))
    ⟨{ success := false, error := some "already registered" }, rfl, rfl, by decide⟩
  simpa [mkRegConfig] using h

/-- C5: if the registered flag is not yet set and every attempt up to the
configured bound fails or throws without an "already registered" indication,
`register()` performs exactly `retryAttempts` attempts, waiting
`retryDelayMs` between consecutive attempts and not after the last, leaves
the flag clear, and returns (rather than throws) the failure result; the
constructor defaults are 3 attempts and 5000 ms. -/
theorem claim5_all_attempts_fail (cfg : RegConfig) (stub : Nat → AttemptOutcome)
    (st : RegState)
    (hst : st.registered = false) (hN : 1 ≤ cfg.retryAttempts)
    (hfail : ∀ i, 1 ≤ i → i ≤ cfg.retryAttempts → nonTerminal (stub i) = true) :
    register cfg stub st
      = (registerFailResult cfg, st,
          stepTrace cfg.retryDelayMs 1 (cfg.retryAttempts - 1)) ∧
    (registerFailResult cfg).success = false ∧
    countAttempts (stepTrace cfg.retryDelayMs 1 (cfg.retryAttempts - 1))
      = cfg.retryAttempts ∧
    countWaits (stepTrace cfg.retryDelayMs 1 (cfg.retryAttempts - 1))
      = cfg.retryAttempts - 1 ∧
    (mkRegConfig {}).retryAttempts = 3 ∧ (mkRegConfig {}).retryDelayMs = 5000 := by
  have hmain : register cfg stub st
      = (registerFailResult cfg, st,
          stepTrace cfg.retryDelayMs 1 (cfg.retryAttempts - 1)) := by
    rw [register, if_neg (by simp [hst])]
    have h := registerLoop_allFail cfg stub st cfg.retryAttempts 1 le_rfl (by omega) hfail
    rw [h, if_neg (by omega)]
  refine ⟨hmain, rfl, ?_, ?_, rfl, rfl⟩
  · rw [countAttempts_stepTrace]
    omega
  · rw [countWaits_stepTrace]

/-- C5 witness: with the flag clear and a stub that times out on every
attempt, `register()` under the default configuration performs exactly 3
attempts separated by two 5000 ms waits and returns the failure result. -/
theorem claim5_witness :
    register (mkRegConfig {}) (fun _ => AttemptOutcome.thrown "fetch timeout")
        { registered := false }
      = (registerFailResult (mkRegConfig {}), { registered := false },
          stepTrace 5000 1 2) ∧
    (registerFailResult (mkRegConfig {})).success = false ∧
    countAttempts (stepTrace 5000 1 2) = 3 ∧
    countWaits (stepTrace 5000 1 2) = 2 := by
  have h := claim5_all_attempts_fail (mkRegConfig {})
    (fun _ => AttemptOutcome.thrown "fetch timeout") { registered := false }
    rfl (by simp [mkRegConfig]) (fun i _ _ => rfl)
  exact ⟨by simpa [mkRegConfig] using h.1, h.2.1, by simpa [mkRegConfig] using h.2.2.1,
    by simpa [mkRegConfig] using h.2.2.2.1⟩

/-- The loop's effect on the sticky flag: it is set exactly when the
returned result is a success, and the incoming state is kept otherwise. -/
theorem registerLoop_state (cfg : RegConfig) (stub : Nat → AttemptOutcome)
    (st : RegState) :
    ∀ rem a, (registerLoop cfg stub st a rem).2.1
      = if (registerLoop cfg stub st a rem).1.success = true then { registered := true }
        else st := by
  intro rem
  induction rem with
  | zero =>
    intro a
    simp [registerLoop, registerFailResult]
  | succ r ih =>
    intro a
    rw [registerLoop_succ]
    cases hstub : stub a with
    | ok r0 =>
      by_cases hs : r0.success = true
      · simp [hs]
      · by_cases hi : indicatesAlready r0 = true
        · simp [hs, hi]
        · by_cases hlt : a < cfg.retryAttempts
          · simp only [if_neg hs, if_neg hi, if_pos hlt]
            exact ih (a + 1)
          · simp only [if_neg hs, if_neg hi, if_neg hlt]
            exact ih (a + 1)
    | thrown msg =>
      by_cases hlt : a < cfg.retryAttempts
      · simp only [if_pos hlt]
        exact ih (a + 1)
      · simp only [if_neg hlt]
        exact ih (a + 1)

/-- `part_000`, a registry vendor entry as consumed by
`verifyRegistration()`: its id and url. -/
structure Vendor where
  id : String
  url : List Char

/-- The result object of `verifyRegistration()`. -/
structure VerifyResult where
  registered : Bool
  vendorId : Option String := none
deriving DecidableEq

/-- `url.replace(/\/$/, "")`: remove one trailing slash if present
(`part_000` lines 163-164). -/
def stripTrailingSlash (u : List Char) : List Char :=
  match u.getLast? with
  | some '/' => u.dropLast
  | _ => u

/-- The vendor-matching predicate of `verifyRegistration()` (lines 161-165):
exact url equality, or equality after one-trailing-slash normalization of
both sides. -/
def urlMatches (selfUrl : List Char) (v : Vendor) : Bool :=
  v.url == selfUrl || stripTrailingSlash v.url == stripTrailingSlash selfUrl

/-- `part_000` lines 148-176, `verifyRegistration()`: `resp` is the fetched
vendor list (`none` models a failed fetch, a non-ok response, or a throw).
On a url match the sticky flag is set and the matched vendor's id returned. -/
def verifyRegistration (selfUrl : List Char) (resp : Option (List Vendor))
    (st : RegState) : VerifyResult × RegState :=
  match resp with
  | none => ({ registered := false }, st)
  | some vendors =>
    match vendors.find? (urlMatches selfUrl) with
    | some v => ({ registered := true, vendorId := some v.id }, { registered := true })
    | none => ({ registered := false }, st)

/-- C6: the `registered` flag is a sticky one-way invariant.  With the flag
set, `register()` short-circuits to the idempotent success result with an
empty event trace (no attempts) and keeps the flag; any `register()` run
that returns success ends with the flag set; `verifyRegistration` preserves
a set flag and sets it whenever it reports the vendor as registered.  No
operation ever clears the flag. -/
theorem claim6_sticky_flag :
    (∀ (cfg : RegConfig) (stub : Nat → AttemptOutcome) (st : RegState),
      st.registered = true →
      register cfg stub st
        = ({ success := true, alreadyRegistered := some true }, st, [])) ∧
    (∀ (cfg : RegConfig) (stub : Nat → AttemptOutcome) (st : RegState),
      (register cfg stub st).1.success = true →
      (register cfg stub st).2.1.registered = true) ∧
    (∀ (selfUrl : List Char) (resp : Option (List Vendor)) (st : RegState),
      st.registered = true → (verifyRegistration selfUrl resp st).2.registered = true) ∧
    (∀ (selfUrl : List Char) (resp : Option (List Vendor)) (st : RegState),
      (verifyRegistration selfUrl resp st).1.registered = true →
      (verifyRegistration selfUrl resp st).2.registered = true) := by
  refine ⟨?_, ?_, ?_, ?_⟩
  · intro cfg stub st h
    rw [register, if_pos h]
  · intro cfg stub st h
    rw [register] at h ⊢
    by_cases hreg : st.registered = true
    · rw [if_pos hreg] at h ⊢
      exact hreg
    · rw [if_neg hreg] at h ⊢
      rw [registerLoop_state, if_pos h]
  · intro selfUrl resp st h
    cases resp with
    | none => simpa [verifyRegistration] using h
    | some vendors =>
      cases hf : vendors.find? (urlMatches selfUrl) with
      | none => simpa [verifyRegistration, hf] using h
      | some v => simp [verifyRegistration, hf]
  · intro selfUrl resp st h
    cases resp with
    | none => simp [verifyRegistration] at h
    | some vendors =>
      cases hf : vendors.find? (urlMatches selfUrl) with
      | none => simp [verifyRegistration, hf] at h
      | some v => simp [verifyRegistration, hf]

/-- C6 witness: with the flag already set, a concrete `register()` run
against an unreachable registry short-circuits to the idempotent success
with no attempts, and a concrete failed verification keeps the flag set. -/
theorem claim6_witness :
    register (mkRegConfig {}) (fun _ => AttemptOutcome.thrown "unreachable")
        { registered := true }
      = ({ success := true, alreadyRegistered := some true }, { registered := true }, []) ∧
    (verifyRegistration ("http://host:3000".data) none { registered := true }).2.registered
      = true :=
  ⟨claim6_sticky_flag.1 (mkRegConfig {}) (fun _ => AttemptOutcome.thrown "unreachable")
      { registered := true } rfl,
    claim6_sticky_flag.2.2.1 ("http://host:3000".data) none { registered := true } rfl⟩

/-- Removing one trailing slash from `u ++ "/"` gives back `u`. -/
theorem stripTrailingSlash_append_slash (u : List Char) :
    stripTrailingSlash (u ++ ['/']) = u := by
  unfold stripTrailingSlash
  rw [List.getLast?_concat]
  simp

/-- A url not ending in a slash is unchanged by the normalization. -/
theorem stripTrailingSlash_no_slash (u : List Char) (h : u.getLast? ≠ some '/') :
    stripTrailingSlash u = u := by
  unfold stripTrailingSlash
  split
  · next heq => exact absurd heq h
  · rfl

/-- A single appended trailing slash (in either direction) is matched,
provided the shorter url does not itself end in a slash. -/
theorem urlMatches_single_slash (u : List Char) (vid : String)
    (h : u.getLast? ≠ some '/') :
    urlMatches u { id := vid, url := u ++ ['/'] } = true ∧
    urlMatches (u ++ ['/']) { id := vid, url := u } = true := by
  constructor
  · simp [urlMatches, stripTrailingSlash_append_slash, stripTrailingSlash_no_slash u h]
  · simp [urlMatches, stripTrailingSlash_append_slash, stripTrailingSlash_no_slash u h]

/-- C7: the claim as stated is false on the code.  The registry url
"http://h//" differs from the configured self-url "http://h/" only by a
single trailing slash, yet `verifyRegistration` reports `registered: false`
for it: the normalization strips at most one slash from each side, so when
the self-url itself ends in a slash the pair does not match. -/
theorem claim7_counterexample :
    ("http://h//".data = "http://h/".data ++ ['/']) ∧
    (verifyRegistration ("http://h/".data)
        (some [{ id := "vendor-A", url := "http://h//".data }])
        { registered := false }).1
      = { registered := false, vendorId := none } := by
  exact ⟨by decide, by decide⟩

/-- C7 (amended): whenever some entry of the vendor list matches the
configured self-url up to one-trailing-slash normalization (in particular an
entry whose url is the self-url plus a trailing slash, or minus its trailing
slash, whenever the shorter form does not itself end in a slash), the
verification reports `registered: true` together with the id of the first
matching vendor.  A url differing by one slash from a self-url that already
ends in a slash is not matched. -/
theorem claim7_amended (vs : List Vendor) (selfUrl : List Char) (st : RegState)
    (h : ∃ v ∈ vs, urlMatches selfUrl v = true) :
    ((verifyRegistration selfUrl (some vs) st).1.registered = true ∧
      ∃ v, vs.find? (urlMatches selfUrl) = some v ∧ urlMatches selfUrl v = true ∧
        (verifyRegistration selfUrl (some vs) st).1.vendorId = some v.id) ∧
    (∀ (u : List Char) (vid : String), u.getLast? ≠ some '/' →
      urlMatches u { id := vid, url := u ++ ['/'] } = true ∧
      urlMatches (u ++ ['/']) { id := vid, url := u } = true) := by
  have hsome : (vs.find? (urlMatches selfUrl)).isSome = true := by
    rw [List.find?_isSome]
    exact h
  obtain ⟨v, hf⟩ := Option.isSome_iff_exists.mp hsome
  have hm : urlMatches selfUrl v = true := List.find?_some hf
  refine ⟨⟨?_, v, hf, hm, ?_⟩, ?_⟩
  · simp [verifyRegistration, hf]
  · simp [verifyRegistration, hf]
  · intro u vid hu
    exact urlMatches_single_slash u vid hu

/-- C7 (amended) witness: a registry entry `{url: "http://host:3000/"}`
matches the configured self-url "http://host:3000" and its id is reported. -/
theorem claim7_amended_witness :
    ((verifyRegistration ("http://host:3000".data)
        (some [{ id := "vendor-1", url := "http://host:3000/".data }])
        { registered := false }).1.registered = true ∧
      ∃ v, ([{ id := "vendor-1", url := "http://host:3000/".data }] : List Vendor).find?
            (urlMatches ("http://host:3000".data)) = some v ∧
        urlMatches ("http://host:3000".data) v = true ∧
        (verifyRegistration ("http://host:3000".data)
            (some [{ id := "vendor-1", url := "http://host:3000/".data }])
            { registered := false }).1.vendorId = some v.id) ∧
    (∀ (u : List Char) (vid : String), u.getLast? ≠ some '/' →
      urlMatches u { id := vid, url := u ++ ['/'] } = true ∧
      urlMatches (u ++ ['/']) { id := vid, url := u } = true) :=
  claim7_amended [{ id := "vendor-1", url := "http://host:3000/".data }]
    ("http://host:3000".data) { registered := false }
    ⟨{ id := "vendor-1", url := "http://host:3000/".data }, by simp, by decide⟩

/-- The JavaScript values a request body field can hold, as far as
`validateRequest` discriminates them. -/
inductive JsValue where
  | undefined
  | null
  | str (s : List Char)
  | num (q : ℚ)
  | boolean (b : Bool)

/-- JavaScript falsiness of a field value (the `!request.query` test). -/
def jsFalsy : JsValue → Bool
  | JsValue.undefined => true
  | JsValue.null => true
  | JsValue.str s => s.isEmpty
  | JsValue.num q => decide (q = 0)
  | JsValue.boolean b => !b

def msgQueryMissing : String := "Missing required field: \x27query\x27"

def msgQueryString : String := "Field \x27query\x27 must be a string"

def msgQueryEmpty : String := "Field \x27query\x27 cannot be empty"

def msgQueryTooLong : String := "Field \x27query\x27 must be less than 2048 characters"

def msgLocString : String := "Field \x27location\x27 must be a string in \x27lat,lng\x27 format"

def msgLocFormat : String :=
  "Field \x27location\x27 must be in \x27lat,lng\x27 format (e.g., \x2737.7749,-122.4194\x27)"

def msgLocNaN : String := "Field \x27location\x27 must contain valid latitude and longitude numbers"

def msgLat : String := "Latitude must be between -90 and 90"

def msgLng : String := "Longitude must be between -180 and 180"

def msgRadiusNum : String := "Field \x27radius\x27 must be a number"

def msgRadiusNeg : String := "Field \x27radius\x27 must be non-negative"

def msgRadiusMax : String := "Field \x27radius\x27 must be 50000 meters or less"

/-- `validateRequest` lines 192-200: the checks on the `query` field, in
source order (note that an empty string is falsy and so reports the
missing-field message). -/
def queryErrors (v : JsValue) : List String :=
  if jsFalsy v = true then [msgQueryMissing]
  else
    match v with
    | JsValue.str s =>
      if (trimChars s).length = 0 then [msgQueryEmpty]
      else if 2048 < s.length then [msgQueryTooLong]
      else []
    | _ => [msgQueryString]

/-- `validateRequest` lines 202-220: the checks on the optional `location`
field, in source order: type, comma part count, numeric parse of the trimmed
parts, latitude range, longitude range. -/
def locationErrors (v : JsValue) : List String :=
  match v with
  | JsValue.undefined => []
  | JsValue.str s =>
    match splitOnChar ',' s with
    | [p1, p2] =>
      match parseSigned (trimChars p1), parseSigned (trimChars p2) with
      | some lat, some lng =>
        if lat < -90 ∨ 90 < lat then [msgLat]
        else if lng < -180 ∨ 180 < lng then [msgLng]
        else []
      | _, _ => [msgLocNaN]
    | _ => [msgLocFormat]
  | _ => [msgLocString]

/-- `validateRequest` lines 222-230: the checks on the optional `radius`
field. -/
def radiusErrors (v : JsValue) : List String :=
  match v with
  | JsValue.undefined => []
  | JsValue.num q =>
    if q < 0 then [msgRadiusNeg]
    else if 50000 < q then [msgRadiusMax]
    else []
  | _ => [msgRadiusNum]

/-- A request body object with the three fields `validateRequest` reads. -/
structure SearchReq where
  query : JsValue := JsValue.undefined
  location : JsValue := JsValue.undefined
  radius : JsValue := JsValue.undefined

/-- `lib/custom/places-service.ts` lines 184-233, `validateRequest` on a
request that is a JSON object: the accumulated error messages, in source
order (each field contributes at most one). -/
def validateRequest (r : SearchReq) : List String :=
  queryErrors r.query ++ locationErrors r.location ++ radiusErrors r.radius

/-- `src/config/x402.ts` line 62: the `maxLength` the published input schema
advertises for `query`. -/
def querySchemaMaxLength : Nat := 512

/-- The cons-step equation of `splitOnChar`. -/
theorem splitOnChar_cons (sep c : Char) (rest : List Char) :
    splitOnChar sep (c :: rest)
      = if c = sep then [] :: splitOnChar sep rest
        else
          match splitOnChar sep rest with
          | [] => [[c]]
          | p :: ps => (c :: p) :: ps := rfl

/-- Splitting a separator-free string yields the single whole part. -/
theorem splitOnChar_no_sep (sep : Char) : ∀ l, sep ∉ l → splitOnChar sep l = [l] := by
  intro l
  induction l with
  | nil => intro _; rfl
  | cons c t ih =>
    intro h
    have hc : ¬ (c = sep) := by
      intro hcc
      exact h (hcc ▸ List.mem_cons_self c t)
    have ht : sep ∉ t := fun hm => h (List.mem_cons_of_mem c hm)
    rw [splitOnChar_cons, ih ht, if_neg hc]

/-- Splitting around the first separator occurrence. -/
theorem splitOnChar_append (sep : Char) : ∀ l1 l2, sep ∉ l1 →
    splitOnChar sep (l1 ++ sep :: l2) = l1 :: splitOnChar sep l2 := by
  intro l1
  induction l1 with
  | nil =>
    intro l2 _
    rw [List.nil_append, splitOnChar_cons, if_pos rfl]
  | cons c t ih =>
    intro l2 h
    have hc : ¬ (c = sep) := by
      intro hcc
      exact h (hcc ▸ List.mem_cons_self c t)
    have ht : sep ∉ t := fun hm => h (List.mem_cons_of_mem c hm)
    rw [show (c :: t) ++ sep :: l2 = c :: (t ++ sep :: l2) from rfl, splitOnChar_cons,
      ih l2 ht, if_neg hc]

/-- Evaluation of the decimal parser on a well-formed `intpart.fracpart`
literal. -/
theorem parseUnsigned_eval (i f : List Char)
    (hcond : (!(i ++ f).isEmpty && i.all isDigitChar && f.all isDigitChar) = true)
    (hdi : '.' ∉ i) (hdf : '.' ∉ f) :
    parseUnsigned (i ++ '.' :: f)
      = some ((natOfDigits i : ℚ) + (natOfDigits f : ℚ) / 10 ^ f.length) := by
  have hsp : splitOnChar '.' (i ++ '.' :: f) = [i, f] := by
    rw [splitOnChar_append '.' i f hdi, splitOnChar_no_sep '.' f hdf]
  unfold parseUnsigned
  rw [hsp]
  simp only []
  rw [if_pos hcond]

/-- The equation of `locationErrors` on a string value. -/
theorem locationErrors_str (s : List Char) :
    locationErrors (JsValue.str s)
      = match splitOnChar ',' s with
        | [p1, p2] =>
          match parseSigned (trimChars p1), parseSigned (trimChars p2) with
          | some lat, some lng =>
            if lat < -90 ∨ 90 < lat then [msgLat]
            else if lng < -180 ∨ 180 < lng then [msgLng]
            else []
          | _, _ => [msgLocNaN]
        | _ => [msgLocFormat] := rfl

/-- A two-part location whose trimmed parts parse to in-range coordinates
produces no error. -/
theorem locationErrors_valid (p1 p2 : List Char) (lat lng : ℚ)
    (h1 : ',' ∉ p1) (h2 : ',' ∉ p2)
    (hp1 : parseSigned (trimChars p1) = some lat)
    (hp2 : parseSigned (trimChars p2) = some lng)
    (hlat1 : -90 ≤ lat) (hlat2 : lat ≤ 90)
    (hlng1 : -180 ≤ lng) (hlng2 : lng ≤ 180) :
    locationErrors (JsValue.str (p1 ++ ',' :: p2)) = [] := by
  have hsp : splitOnChar ',' (p1 ++ ',' :: p2) = [p1, p2] := by
    rw [splitOnChar_append ',' p1 p2 h1, splitOnChar_no_sep ',' p2 h2]
  rw [locationErrors_str, hsp]
  simp only []
  rw [hp1, hp2]
  simp only []
  rw [if_neg (by push_neg; exact ⟨by linarith, by linarith⟩),
    if_neg (by push_neg; exact ⟨by linarith, by linarith⟩)]

/-- A location string with a comma part count other than two produces
exactly the format error. -/
theorem locationErrors_wrong_parts (s : List Char)
    (h : (splitOnChar ',' s).length ≠ 2) :
    locationErrors (JsValue.str s) = [msgLocFormat] := by
  rw [locationErrors_str]
  rcases hsp : splitOnChar ',' s with _ | ⟨p1, _ | ⟨p2, _ | ⟨p3, r⟩⟩⟩ <;> simp only []
  exact absurd (by rw [hsp]; rfl) h

/-- A two-part location whose trimmed parts parse but whose latitude falls
outside [-90, 90] produces exactly the latitude message. -/
theorem locationErrors_lat_range (p1 p2 : List Char) (lat lng : ℚ)
    (h1 : ',' ∉ p1) (h2 : ',' ∉ p2)
    (hp1 : parseSigned (trimChars p1) = some lat)
    (hp2 : parseSigned (trimChars p2) = some lng)
    (hl : lat < -90 ∨ 90 < lat) :
    locationErrors (JsValue.str (p1 ++ ',' :: p2)) = [msgLat] := by
  have hsp : splitOnChar ',' (p1 ++ ',' :: p2) = [p1, p2] := by
    rw [splitOnChar_append ',' p1 p2 h1, splitOnChar_no_sep ',' p2 h2]
  rw [locationErrors_str, hsp]
  simp only []
  rw [hp1, hp2]
  simp only []
  rw [if_pos hl]

/-- Concrete evaluation of the signed parser at "37.7749". -/
theorem parseSigned_37_7749 :
    parseSigned ("37.7749".data) = some ((37 : ℚ) + (7749 : ℚ) / 10 ^ 4) := by
  unfold parseSigned
  rw [if_neg (by decide), if_neg (by decide)]
  rw [show "37.7749".data = "37".data ++ '.' :: "7749".data from by decide]
  rw [parseUnsigned_eval ("37".data) ("7749".data) (by decide) (by decide) (by decide)]
  norm_num [show natOfDigits ("37".data) = 37 from by decide,
    show natOfDigits ("7749".data) = 7749 from by decide,
    show ("7749".data).length = 4 from by decide]

/-- Concrete evaluation of the signed parser at "-122.4194". -/
theorem parseSigned_neg122_4194 :
    parseSigned ("-122.4194".data) = some (-((122 : ℚ) + (4194 : ℚ) / 10 ^ 4)) := by
  unfold parseSigned
  rw [if_pos (by decide)]
  rw [show ("-122.4194".data).tail = "122".data ++ '.' :: "4194".data from by decide]
  rw [parseUnsigned_eval ("122".data) ("4194".data) (by decide) (by decide) (by decide)]
  norm_num [show natOfDigits ("122".data) = 122 from by decide,
    show natOfDigits ("4194".data) = 4194 from by decide,
    show ("4194".data).length = 4 from by decide]

/-- Concrete evaluation of the signed parser at "200". -/
theorem parseSigned_200 : parseSigned ("200".data) = some (200 : ℚ) := by
  unfold parseSigned
  rw [if_neg (by decide), if_neg (by decide)]
  unfold parseUnsigned
  rw [splitOnChar_no_sep '.' ("200".data) (by decide)]
  simp only []
  rw [if_pos (by decide)]
  norm_num [show natOfDigits ("200".data) = 200 from by decide]

/-- A request with a valid query and the location "37.7749,-122.4194". -/
def reqLocOk : SearchReq :=
  { query := JsValue.str ("coffee".data)
    location := JsValue.str ("37.7749,-122.4194".data) }

/-- A request with a valid query and the one-part location "37.7749". -/
def reqLocOnePart : SearchReq :=
  { query := JsValue.str ("coffee".data)
    location := JsValue.str ("37.7749".data) }

/-- A request with a valid query and the out-of-range location
"200,-122.4194". -/
def reqLocBigLat : SearchReq :=
  { query := JsValue.str ("coffee".data)
    location := JsValue.str ("200,-122.4194".data) }

/-- C9: `validateRequest` accepts the location "37.7749,-122.4194", rejects
"37.7749" with the wrong-part-count message, rejects "200,-122.4194" with
the latitude-range message, the two messages are distinct and
field-specific; and in general every two-part location with in-range
coordinates is accepted, every location with a part count other than two
gets exactly the format message, and every two-part location parsing to an
out-of-range latitude gets exactly the latitude message. -/
theorem claim9_location_validation :
    validateRequest reqLocOk = [] ∧
    validateRequest reqLocOnePart = [msgLocFormat] ∧
    validateRequest reqLocBigLat = [msgLat] ∧
    msgLocFormat ≠ msgLat ∧
    (∀ p1 p2 lat lng, ',' ∉ p1 → ',' ∉ p2 →
      parseSigned (trimChars p1) = some lat → parseSigned (trimChars p2) = some lng →
      -90 ≤ lat → lat ≤ 90 → -180 ≤ lng → lng ≤ 180 →
      locationErrors (JsValue.str (p1 ++ ',' :: p2)) = []) ∧
    (∀ s, (splitOnChar ',' s).length ≠ 2 →
      locationErrors (JsValue.str s) = [msgLocFormat]) ∧
    (∀ p1 p2 lat lng, ',' ∉ p1 → ',' ∉ p2 →
      parseSigned (trimChars p1) = some lat → parseSigned (trimChars p2) = some lng →
      (lat < -90 ∨ 90 < lat) →
      locationErrors (JsValue.str (p1 ++ ',' :: p2)) = [msgLat]) := by
  have hq : queryErrors (JsValue.str ("coffee".data)) = [] := by decide
  have htrim1 : trimChars ("37.7749".data) = "37.7749".data := by decide
  have htrim2 : trimChars ("-122.4194".data) = "-122.4194".data := by decide
  have htrim3 : trimChars ("200".data) = "200".data := by decide
  refine ⟨?_, ?_, ?_, by decide, locationErrors_valid, locationErrors_wrong_parts,
    locationErrors_lat_range⟩
  · have hloc : locationErrors (JsValue.str ("37.7749,-122.4194".data)) = [] := by
      rw [show "37.7749,-122.4194".data
          = "37.7749".data ++ ',' :: "-122.4194".data from by decide]
      exact locationErrors_valid _ _ _ _ (by decide) (by decide)
        (by rw [htrim1]; exact parseSigned_37_7749)
        (by rw [htrim2]; exact parseSigned_neg122_4194)
        (by norm_num) (by norm_num) (by norm_num) (by norm_num)
    simp only [reqLocOk, validateRequest]
    rw [hq, hloc]
    rfl
  · have hloc : locationErrors (JsValue.str ("37.7749".data)) = [msgLocFormat] :=
      locationErrors_wrong_parts _ (by decide)
    simp only [reqLocOnePart, validateRequest]
    rw [hq, hloc]
    rfl
  · have hloc : locationErrors (JsValue.str ("200,-122.4194".data)) = [msgLat] := by
      rw [show "200,-122.4194".data = "200".data ++ ',' :: "-122.4194".data from by decide]
      exact locationErrors_lat_range _ _ _ _ (by decide) (by decide)
        (by rw [htrim3]; exact parseSigned_200)
        (by rw [htrim2]; exact parseSigned_neg122_4194)
        (Or.inr (by norm_num))
    simp only [reqLocBigLat, validateRequest]
    rw [hq, hloc]
    rfl

/-- C9 witness: the one-part location "37" receives exactly the
wrong-part-count message, which differs from the latitude message. -/
theorem claim9_witness :
    locationErrors (JsValue.str ("37".data)) = [msgLocFormat] ∧ msgLocFormat ≠ msgLat :=
  ⟨claim9_location_validation.2.2.2.2.2.1 ("37".data) (by decide),
    claim9_location_validation.2.2.2.1⟩

/-- C10: every request whose `query` is a string that is non-empty after
trimming and at most 2048 characters long, with `location` and `radius`
absent or valid, passes validation with no errors — although the published
input schema advertises `maxLength` 512 for `query`, so every accepted query
of length at least 513 exceeds the schema bound. -/
theorem claim10_query_length (q : List Char) (loc rad : JsValue)
    (hq1 : trimChars q ≠ []) (hq2 : q.length ≤ 2048)
    (hloc : locationErrors loc = []) (hrad : radiusErrors rad = []) :
    validateRequest { query := JsValue.str q, location := loc, radius := rad } = [] ∧
    querySchemaMaxLength = 512 ∧
    (513 ≤ q.length → querySchemaMaxLength < q.length) := by
  have hqne : q ≠ [] := by
    intro hq0
    apply hq1
    rw [hq0]
    decide
  have hfal : jsFalsy (JsValue.str q) = false := by
    cases q with
    | nil => exact absurd rfl hqne
    | cons c t => rfl
  have hqe : queryErrors (JsValue.str q) = [] := by
    unfold queryErrors
    rw [if_neg (show ¬ jsFalsy (JsValue.str q) = true by
      rw [hfal]; exact Bool.false_ne_true)]
    simp only []
    rw [if_neg (by simpa [List.length_eq_zero] using hq1), if_neg (by omega)]
  refine ⟨?_, rfl, fun h => by unfold querySchemaMaxLength; omega⟩
  simp only [validateRequest]
  rw [hqe, hloc, hrad]
  rfl

set_option maxRecDepth 4000 in
/-- C10 witness: a 600-character query — well above the schema's advertised
512-character maximum — passes validation. -/
theorem claim10_witness :
    validateRequest
        { query := JsValue.str (List.replicate 600 'a')
          location := JsValue.undefined
          radius := JsValue.undefined } = [] ∧
    querySchemaMaxLength = 512 ∧
    (513 ≤ (List.replicate 600 'a').length →
      querySchemaMaxLength < (List.replicate 600 'a').length) :=
  claim10_query_length (List.replicate 600 'a') JsValue.undefined JsValue.undefined
    (by decide) (by decide) rfl rfl
